import Mathlib

/-!
Shallow embedding of the no-OS Maxim (MAX32660) board-support layer:
the interrupt-dispatch and callback-registry code of
`drivers/platform/maxim/maxim_uart.c` (UART0/UART1 dispatchers and the
per-port callback registry), `drivers/platform/maxim/maxim_rtc.c`
(RTC dispatcher, registry, and subsecond conversions),
`drivers/platform/maxim/maxim_gpio.c` (GPIO dispatcher, per-pin registry,
trigger configuration), and `drivers/platform/maxim/maxim_irq.c`
(controller facade routing).

Machine integers are modelled as `Nat` with explicit 32-bit masking where
the C code can overflow or truncate; C `uint8_t` truncation is `% 256`.
Error returns are `Int` values `-EINVAL`, `-ENOMEM` as in `<errno.h>`.
-/

namespace NoOS

/-- Linux errno constant used by the drivers as `-EINVAL`. -/
def EINVAL : Int := 22

/-- Linux errno constant used by the drivers as `-ENOMEM`. -/
def ENOMEM : Int := 12

/-- 32-bit all-ones mask, the width of the peripheral registers. -/
def mask32 : Nat := 2 ^ 32 - 1

/-- BIT macro of `no-os/util.h`: `BIT(x) = (1 << x)`. -/
def BIT (n : Nat) : Nat := 1 <<< n

/-- C expression `x & ~BIT(n)` on a 32-bit register value. -/
def cbit (x n : Nat) : Nat := x &&& (mask32 ^^^ BIT n)

/-- C expression `x | BIT(n)` on a 32-bit register value. -/
def sbit (x n : Nat) : Nat := x ||| BIT n

/-- Contents of a `struct callback_desc`: the handler function pointer, the
context pointer and the configuration pointer, modelled as opaque numbers. -/
structure Callback where
  callback : Nat
  ctx : Nat
  config : Nat
deriving DecidableEq, Repr

/-- State of one `struct callback_desc *` registry slot.  `null` is a NULL
pointer; `live c` is a pointer to an allocated descriptor holding `c`;
`dangling` is a pointer whose descriptor has been passed to `free()` but
which was never reset to NULL (the source files free the slot without
nulling the pointer, so this state is reachable). -/
inductive Slot where
  | null
  | live (c : Callback)
  | dangling
deriving DecidableEq, Repr

/-- C test `!cb` on a registry slot: true exactly for a NULL pointer
(a dangling pointer still compares non-null). -/
def Slot.isNull : Slot → Bool
  | .null => true
  | _ => false

/-- Specification-side decoder, stated from the spec words (section 8):
for all pending and enabled bit patterns, the ascending list of indices
`i < 32` such that bit `i` is set in both inputs. -/
def decodeSpec (pending enabled : Nat) : List Nat :=
  (List.range 32).filter (fun i => pending.testBit i && enabled.testBit i)

/-- Ascending indices of the set bits of `stat`, offset by `pin`; the order
in which the C dispatch loops walk a status word (`while(stat) { ...
stat >>= 1; pin++; }`). -/
def bitIndices (stat pin : Nat) : List Nat :=
  if stat = 0 then []
  else
    (if stat % 2 = 1 then [pin] else []) ++ bitIndices (stat / 2) (pin + 1)
decreasing_by exact Nat.bitwise_rec_lemma (by assumption)

/-! ## UART dispatchers (`maxim_uart.c`) -/

/-- UART peripheral registers read by the dispatchers: the interrupt flag
register `int_fl` and the interrupt enable register `int_en`. -/
structure UartRegs where
  int_fl : Nat
  int_en : Nat
deriving DecidableEq, Repr

/-- Loop body of `UART0_IRQHandler` (`maxim_uart.c` lines 76-84).  The C
condition is `(reg_int & 1) && uart_regs->int_en && BIT(n_int)`: a logical
AND of the pending bit with the whole enable register and with the nonzero
constant `BIT(n_int)`, not a bitwise test of enable bit `n_int`. -/
def uart0Loop (int_en reg_int n : Nat) : List Nat :=
  if reg_int = 0 then []
  else
    (if reg_int % 2 = 1 ∧ int_en ≠ 0 ∧ BIT n ≠ 0 then [n] else []) ++
      uart0Loop int_en (reg_int / 2) (n + 1)
decreasing_by exact Nat.bitwise_rec_lemma (by assumption)

/-- Loop body of `UART1_IRQHandler` (`maxim_uart.c` lines 99-107).  The C
condition is `(reg_int & 1) && (uart_regs->int_en & BIT(n_int))`: pending
bit `n_int` and enable bit `n_int` both set. -/
def uart1Loop (int_en reg_int n : Nat) : List Nat :=
  if reg_int = 0 then []
  else
    (if reg_int % 2 = 1 ∧ int_en &&& BIT n ≠ 0 then [n] else []) ++
      uart1Loop int_en (reg_int / 2) (n + 1)
decreasing_by exact Nat.bitwise_rec_lemma (by assumption)

/-- Handler `UART0_IRQHandler` (`maxim_uart.c` lines 64-85): return at once
if `cb[0]` is NULL; otherwise snapshot `int_fl`, clear it by writing 0, and
run the dispatch loop.  Returns the registers after the call and the list
of event indices passed to the registered callback. -/
def UART0_IRQHandler (cb0 : Slot) (regs : UartRegs) : UartRegs × List Nat :=
  if cb0.isNull then (regs, [])
  else ({ regs with int_fl := 0 }, uart0Loop regs.int_en regs.int_fl 0)

/-- Handler `UART1_IRQHandler` (`maxim_uart.c` lines 87-108), same shape as
UART0 but with the bitwise enable test. -/
def UART1_IRQHandler (cb1 : Slot) (regs : UartRegs) : UartRegs × List Nat :=
  if cb1.isNull then (regs, [])
  else ({ regs with int_fl := 0 }, uart1Loop regs.int_en regs.int_fl 0)

/-! ## RTC dispatcher (`maxim_rtc.c`) -/

/-- Loop body of `RTC_IRQHandler` (`maxim_rtc.c` lines 84-90).  `ctrl` is
the live `rtc_regs->ctrl` value during the loop (constant here: the loop
does not write it), `rtc_ctrl` the shifted snapshot.  The C condition is
`(rtc_ctrl & 1) && (rtc_regs->ctrl & BIT(n_int))`. -/
def rtcLoop (ctrl rtc_ctrl n : Nat) : List Nat :=
  if rtc_ctrl = 0 then []
  else
    (if rtc_ctrl % 2 = 1 ∧ ctrl &&& BIT n ≠ 0 then [n] else []) ++
      rtcLoop ctrl (rtc_ctrl / 2) (n + 1)
decreasing_by exact Nat.bitwise_rec_lemma (by assumption)

/-- Handler `RTC_IRQHandler` (`maxim_rtc.c` lines 65-91): return at once if
`cb` is NULL; otherwise snapshot `ctrl`, clear flag bits 7, 6 and 5 in the
register, shift the snapshot right by 5 and mask to 3 bits, and run the
dispatch loop against the (post-clear) control register.  Returns the
`ctrl` register after the call and the invoked event indices. -/
def RTC_IRQHandler (cb : Slot) (ctrl : Nat) : Nat × List Nat :=
  if cb.isNull then (ctrl, [])
  else
    let rtc_ctrl := ctrl
    let ctrl1 := cbit ctrl 7
    let ctrl2 := cbit ctrl1 6
    let ctrl3 := cbit ctrl2 5
    let pending := (rtc_ctrl >>> 5) &&& 0x7
    (ctrl3, rtcLoop ctrl3 pending 0)

/-! ## RTC subsecond conversions (`maxim_rtc.c`) -/

/-- Magnitude subterm `(x * 256) / 1000` of the `MS_TO_RSSA` macro
(`maxim_rtc.c` line 53): milliseconds to hardware subsecond units,
truncating integer arithmetic. -/
def hwUnitsOfMs (x : Nat) : Nat := x * 256 / 1000

/-- Macro `MS_TO_RSSA(x) = (0 - ((x * 256) / 1000))` (`maxim_rtc.c` line
53), evaluated in 32-bit unsigned arithmetic: the two's-complement negation
of the unit count, the value armed into the sub-second alarm register. -/
def MS_TO_RSSA (x : Nat) : Nat := (2 ^ 32 - hwUnitsOfMs x % 2 ^ 32) % 2 ^ 32

/-- Conversion `(RTC_GetSubSecond() * 1000) / 256` of `rtc_get_time`
(`maxim_rtc.c` line 237): hardware subsecond units to milliseconds. -/
def msOfHwUnits (u : Nat) : Nat := u * 1000 / 256

/-! ## Callback registries (`maxim_uart.c`, `maxim_rtc.c`) -/

/-- Modelled from the spec: `N_PORTS`, the number of serial ports, is
defined in the platform header `maxim_uart.h`, which is not part of the
reviewed sources.  The spec recognizes serial ports 0 and 1 and the
registry in `maxim_uart.c` is `static struct callback_desc *cb[2]`, one
slot per port, so `N_PORTS = 2`. -/
def N_PORTS : Nat := 2

/-- The two-slot UART registry `static struct callback_desc *cb[2]`
(`maxim_uart.c` line 58). -/
structure UartCbs where
  cb0 : Slot
  cb1 : Slot
deriving DecidableEq, Repr

/-- Slot `cb[port]` of the UART registry for `port < N_PORTS`. -/
def UartCbs.get (s : UartCbs) (port : Nat) : Slot :=
  if port = 0 then s.cb0 else s.cb1

/-- Update of slot `cb[port]` of the UART registry. -/
def UartCbs.set (s : UartCbs) (port : Nat) (v : Slot) : UartCbs :=
  if port = 0 then { s with cb0 := v } else { s with cb1 := v }

/-- Function `uart_register_callback` (`maxim_uart.c` lines 322-337): fail
with `-EINVAL` on a NULL descriptor or out-of-range port; allocate a new
descriptor only when `cb[port]` is NULL (failing with `-ENOMEM` when the
allocation fails); then copy the three fields into the slot.  `allocOk`
models whether `calloc` succeeds.  A write through a dangling slot pointer
stores into the freed block, modelled as the slot becoming `live`. -/
def uart_register_callback (allocOk : Bool) (port : Nat)
    (desc : Option Callback) (s : UartCbs) : Int × UartCbs :=
  match desc with
  | none => (-EINVAL, s)
  | some c =>
    if N_PORTS ≤ port then (-EINVAL, s)
    else
      match s.get port with
      | .null =>
        if allocOk then (0, s.set port (.live c)) else (-ENOMEM, s)
      | .live _ => (0, s.set port (.live c))
      | .dangling => (0, s.set port (.live c))

/-- Function `uart_unregister_callback` (`maxim_uart.c` lines 344-352):
fail with `-EINVAL` on an out-of-range port or a NULL slot pointer;
otherwise `free(cb[port])` and return 0.  The source never resets
`cb[port]` to NULL, so a live slot becomes dangling and a dangling slot is
freed a second time (still returning 0). -/
def uart_unregister_callback (port : Nat) (s : UartCbs) : Int × UartCbs :=
  if N_PORTS ≤ port then (-EINVAL, s)
  else
    match s.get port with
    | .null => (-EINVAL, s)
    | .live _ => (0, s.set port .dangling)
    | .dangling => (0, s)

/-- Function `rtc_register_callback` (`maxim_rtc.c` lines 247-263): same
shape as the UART registration for the single RTC slot `cb`. -/
def rtc_register_callback (allocOk : Bool) (desc : Option Callback)
    (s : Slot) : Int × Slot :=
  match desc with
  | none => (-EINVAL, s)
  | some c =>
    match s with
    | .null => if allocOk then (0, .live c) else (-ENOMEM, s)
    | .live _ => (0, .live c)
    | .dangling => (0, .live c)

/-- Function `rtc_unregister_callback` (`maxim_rtc.c` lines 269-277):
`if(!cb) return -EINVAL; free(cb); return 0;` — the pointer is never reset
to NULL after the free. -/
def rtc_unregister_callback (s : Slot) : Int × Slot :=
  match s with
  | .null => (-EINVAL, s)
  | .live _ => (0, .dangling)
  | .dangling => (0, s)

/-! ## GPIO driver (`maxim_gpio.c`) -/

/-- Size `N_INT = 14` of the static per-pin callback table
(`maxim_gpio.c` line 50). -/
def N_INT : Nat := 14

/-- Modelled from the spec: `N_PINS`, the number of pins of the pin
controller, is defined in the platform header `gpio_extra.h`, which is not
part of the reviewed sources.  The dispatcher file sizes its per-pin
callback table with `N_INT = 14` entries for the same pins (the MAX32660
port named by `max32660.h` has 14 GPIO pins), so `N_PINS = 14`. -/
def N_PINS : Nat := 14

/-- GPIO interrupt registers touched by the driver.  A write of `v` to the
write-one-to-clear register `int_clr` clears the written bits of
`int_stat`; the model therefore keeps only `int_stat`. -/
structure GpioRegs where
  int_en : Nat
  int_stat : Nat
  int_mod : Nat
  int_pol : Nat
  int_dual_edge : Nat
deriving DecidableEq, Repr

/-- A `struct gpio_desc` as used by the interrupt paths: the pin number and
whether the `extra` configuration pointer is non-null. -/
structure GpioDesc where
  number : Nat
  extraPresent : Bool
deriving DecidableEq, Repr

/-- A `struct gpio_init_param` as used by `max_gpio_get`: the pin number
(the other fields are copied opaquely). -/
structure GpioInitParam where
  number : Nat
  extraPresent : Bool
deriving DecidableEq, Repr

/-- Enum `irq_trig_level` argument of the trigger configuration; the
`other` constructor stands for any value outside the five recognized
labels, which the C `switch` sends to `default`. -/
inductive TrigLevel where
  | edgeRising
  | edgeFalling
  | levelHigh
  | levelLow
  | edgeBoth
  | other (v : Nat)
deriving DecidableEq, Repr

/-- Per-pin callback table `static struct callback_desc *gpio_callback[N_INT]`
(`maxim_gpio.c` line 52), modelled as a total map from pin index to slot
state (index bounds are the subject of claim C9). -/
def GpioTable := Nat → Slot

/-- Dispatch loop of `GPIO0_IRQHandler` (`maxim_gpio.c` lines 66-75): for
each set bit, return at once when `gpio_callback[pin]` is NULL, otherwise
invoke the callback with the pin index. -/
def gpioLoop (tbl : GpioTable) (stat pin : Nat) : List Nat :=
  if stat = 0 then []
  else
    if stat % 2 = 1 then
      if (tbl pin).isNull then []
      else pin :: gpioLoop tbl (stat / 2) (pin + 1)
    else gpioLoop tbl (stat / 2) (pin + 1)
decreasing_by all_goals exact Nat.bitwise_rec_lemma (by assumption)

/-- Indices at which the dispatch loop of `GPIO0_IRQHandler` reads the
`gpio_callback` table: every set-bit position visited, including the one
at which a NULL entry stops the loop. -/
def gpioLoopReads (tbl : GpioTable) (stat pin : Nat) : List Nat :=
  if stat = 0 then []
  else
    if stat % 2 = 1 then
      if (tbl pin).isNull then [pin]
      else pin :: gpioLoopReads tbl (stat / 2) (pin + 1)
    else gpioLoopReads tbl (stat / 2) (pin + 1)
decreasing_by all_goals exact Nat.bitwise_rec_lemma (by assumption)

/-- Handler `GPIO0_IRQHandler` (`maxim_gpio.c` lines 58-76): read
`int_stat`, clear all read flags by writing the snapshot to `int_clr`, and
run the dispatch loop.  There is no up-front registry check: the hardware
read and clear happen unconditionally. -/
def GPIO0_IRQHandler (tbl : GpioTable) (regs : GpioRegs) :
    GpioRegs × List Nat :=
  let stat_reg := regs.int_stat
  let regs1 := { regs with int_stat := regs.int_stat &&& (mask32 ^^^ stat_reg) }
  (regs1, gpioLoop tbl stat_reg 0)

/-- Function `max_gpio_get` (`maxim_gpio.c` lines 84-103): fail with
`-EINVAL` on a NULL parameter or a pin number not below `N_PINS`, with
`-ENOMEM` when the descriptor allocation fails, and otherwise return a
descriptor carrying the pin number and the `extra` pointer of the
parameter. -/
def max_gpio_get (allocOk : Bool) (param : Option GpioInitParam) :
    Int × Option GpioDesc :=
  match param with
  | none => (-EINVAL, none)
  | some p =>
    if N_PINS ≤ p.number then (-EINVAL, none)
    else if allocOk then (0, some ⟨p.number, p.extraPresent⟩)
    else (-ENOMEM, none)

/-- Function `max_gpio_get_optional` (`maxim_gpio.c` lines 111-120): a NULL
parameter stores a NULL descriptor and returns 0; otherwise it delegates to
`max_gpio_get`. -/
def max_gpio_get_optional (allocOk : Bool) (param : Option GpioInitParam) :
    Int × Option GpioDesc :=
  match param with
  | none => (0, none)
  | some p => max_gpio_get allocOk (some p)

/-- Function `max_gpio_irq_set_trigger_level` (`maxim_gpio.c` lines
278-333).  The pre-call enable bit is snapshot into the C local
`uint8_t is_enabled = gpio_regs->int_en & BIT(desc->number)`, truncating
the 32-bit AND result to 8 bits.  The pin's enable bit is then cleared and
its pending flag cleared (`int_clr |= BIT(n)`), the mode/polarity/dual-edge
bits are programmed per policy, and the enable bit is restored when
`is_enabled` is nonzero — on the recognized policies and on the `default`
(`-EINVAL`) path alike. -/
def max_gpio_irq_set_trigger_level (desc : Option GpioDesc)
    (trig_l : TrigLevel) (regs : GpioRegs) : Int × GpioRegs :=
  match desc with
  | none => (-EINVAL, regs)
  | some d =>
    if !d.extraPresent then (-EINVAL, regs)
    else if N_PINS ≤ d.number then (-EINVAL, regs)
    else
      let is_enabled : Nat := (regs.int_en &&& BIT d.number) % 256
      let regs := { regs with int_en := cbit regs.int_en d.number }
      let regs := { regs with int_stat := cbit regs.int_stat d.number }
      match trig_l with
      | .edgeRising =>
        let regs := { regs with int_mod := sbit regs.int_mod d.number }
        let regs := { regs with int_pol := cbit regs.int_pol d.number }
        let regs := if is_enabled ≠ 0 then
            { regs with int_en := sbit regs.int_en d.number } else regs
        (0, regs)
      | .edgeFalling =>
        let regs := { regs with int_mod := sbit regs.int_mod d.number }
        let regs := { regs with int_pol := sbit regs.int_pol d.number }
        let regs := if is_enabled ≠ 0 then
            { regs with int_en := sbit regs.int_en d.number } else regs
        (0, regs)
      | .levelHigh =>
        let regs := { regs with int_mod := cbit regs.int_mod d.number }
        let regs := { regs with int_pol := cbit regs.int_pol d.number }
        let regs := if is_enabled ≠ 0 then
            { regs with int_en := sbit regs.int_en d.number } else regs
        (0, regs)
      | .levelLow =>
        let regs := { regs with int_mod := cbit regs.int_mod d.number }
        let regs := { regs with int_pol := sbit regs.int_pol d.number }
        let regs := if is_enabled ≠ 0 then
            { regs with int_en := sbit regs.int_en d.number } else regs
        (0, regs)
      | .edgeBoth =>
        let regs := { regs with
          int_dual_edge := sbit regs.int_dual_edge d.number }
        let regs := if is_enabled ≠ 0 then
            { regs with int_en := sbit regs.int_en d.number } else regs
        (0, regs)
      | .other _ =>
        let regs := if is_enabled ≠ 0 then
            { regs with int_en := sbit regs.int_en d.number } else regs
        (-EINVAL, regs)

/-- A `struct gpio_irq_config` hung off the IRQ controller descriptor: the
GPIO descriptor of the pin and the requested trigger mode. -/
structure GpioIrqConfig where
  gdesc : Option GpioDesc
  mode : TrigLevel

/-- A `struct irq_ctrl_desc` as consumed by the GPIO callback paths: only
its `extra` pointer (a `struct gpio_irq_config`) is read. -/
structure IrqCtrlDesc where
  extra : Option GpioIrqConfig

/-- Function `max_gpio_register_callback` (`maxim_gpio.c` lines 341-369):
fail with `-EINVAL` on NULL callback descriptor, controller descriptor or
`extra`; allocate a fresh `struct callback_desc` on every call (failing
with `-ENOMEM` when `calloc` fails, before any configuration); configure
the pin (the result of `max_gpio_direction_input` is overwritten by the
`max_gpio_irq_set_trigger_level` result, so only the latter is checked);
on a configuration error free the fresh descriptor and return the error,
leaving the table untouched; otherwise store the new descriptor pointer
into `gpio_callback[number]`, replacing (and leaking) any previous one. -/
def max_gpio_register_callback (allocOk : Bool)
    (ctrl_desc : Option IrqCtrlDesc) (desc : Option Callback)
    (tbl : GpioTable) (regs : GpioRegs) : Int × GpioTable × GpioRegs :=
  match desc, ctrl_desc with
  | none, _ => (-EINVAL, tbl, regs)
  | some _, none => (-EINVAL, tbl, regs)
  | some c, some cd =>
    match cd.extra with
    | none => (-EINVAL, tbl, regs)
    | some g_irq =>
      if !allocOk then (-ENOMEM, tbl, regs)
      else
        let tr := max_gpio_irq_set_trigger_level g_irq.gdesc g_irq.mode regs
        if tr.1 ≠ 0 then (tr.1, tbl, tr.2)
        else
          match g_irq.gdesc with
          | none => (0, tbl, tr.2)
          | some gd =>
            (0, fun i => if i = gd.number then Slot.live c else tbl i, tr.2)

/-- Function `max_gpio_unregister_callback` (`maxim_gpio.c` lines 376-388):
fail with `-EINVAL` only on a NULL descriptor or NULL `extra`; otherwise
disable the pin interrupt (vendor call, outside the modelled registers) and
`free(gpio_callback[number])`, returning 0 whether or not a callback was
ever registered.  The pointer is not reset to NULL.  A NULL `gpio_desc`
inside `extra` would be dereferenced by the C code; that undefined path is
modelled as leaving the table unchanged. -/
def max_gpio_unregister_callback (ctrl_desc : Option IrqCtrlDesc)
    (tbl : GpioTable) : Int × GpioTable :=
  match ctrl_desc with
  | none => (-EINVAL, tbl)
  | some cd =>
    match cd.extra with
    | none => (-EINVAL, tbl)
    | some g_cfg =>
      match g_cfg.gdesc with
      | none => (0, tbl)
      | some gd =>
        match tbl gd.number with
        | .live _ => (0, fun i => if i = gd.number then Slot.dangling else tbl i)
        | _ => (0, tbl)

/-! ## Controller facade (`maxim_irq.c`) -/

/-- Modelled from the spec: the interrupt source identifiers
`MAX_UART0_INT_ID`, `MAX_UART1_INT_ID`, `MAX_RTC_INT_ID` and
`MAX_GPIO_INT_ID` are defined in `irq_extra.h`, which is not part of the
reviewed sources; the spec only requires them to be stable, distinct
identifiers of the four peripheral classes.  They are modelled by the
MAX32660 NVIC interrupt numbers of the respective peripherals. -/
def MAX_UART0_INT_ID : Nat := 14

/-- Source identifier of serial port 1; see `MAX_UART0_INT_ID`. -/
def MAX_UART1_INT_ID : Nat := 15

/-- Source identifier of the clock alarm; see `MAX_UART0_INT_ID`. -/
def MAX_RTC_INT_ID : Nat := 3

/-- Source identifier of the pin-controller aggregate; see
`MAX_UART0_INT_ID`. -/
def MAX_GPIO_INT_ID : Nat := 24

/-- Combined registry and register state routed by the controller facade. -/
structure SysState where
  uart : UartCbs
  rtc : Slot
  gpioTbl : GpioTable
  gpioRegs : GpioRegs

/-- Function `max_irq_register_callback` (`maxim_irq.c` lines 109-135):
fail with `-EINVAL` on a NULL controller descriptor; route the call by
`irq_id` to the UART, GPIO or RTC registration; any other identifier fails
with `-EINVAL` before any registry or hardware state is touched. -/
def max_irq_register_callback (allocOk : Bool) (desc : Option IrqCtrlDesc)
    (irq_id : Nat) (callback_desc : Option Callback) (st : SysState) :
    Int × SysState :=
  match desc with
  | none => (-EINVAL, st)
  | some d =>
    if irq_id = MAX_UART0_INT_ID then
      let r := uart_register_callback allocOk 0 callback_desc st.uart
      (r.1, { st with uart := r.2 })
    else if irq_id = MAX_UART1_INT_ID then
      let r := uart_register_callback allocOk 1 callback_desc st.uart
      (r.1, { st with uart := r.2 })
    else if irq_id = MAX_GPIO_INT_ID then
      let r := max_gpio_register_callback allocOk (some d) callback_desc
        st.gpioTbl st.gpioRegs
      (r.1, { st with gpioTbl := r.2.1, gpioRegs := r.2.2 })
    else if irq_id = MAX_RTC_INT_ID then
      let r := rtc_register_callback allocOk callback_desc st.rtc
      (r.1, { st with rtc := r.2 })
    else (-EINVAL, st)

/-! ## Helper lemmas -/

/-- Helper: a value below `2 ^ 32` ANDed with its 32-bit complement is 0. -/
theorem land_mask32_compl_self {x : Nat} (h : x < 2 ^ 32) :
    x &&& (mask32 ^^^ x) = 0 := by
  apply Nat.eq_of_testBit_eq
  intro i
  simp only [Nat.testBit_land, Nat.testBit_xor, mask32,
    Nat.testBit_two_pow_sub_one, Nat.zero_testBit]
  rcases lt_or_ge i 32 with hi | hi
  · simp [hi]
  · have hx : x.testBit i = false :=
      Nat.testBit_lt_two_pow (lt_of_lt_of_le h (Nat.pow_le_pow_right (by norm_num) hi))
    simp [hx]

/-- Helper: membership in `bitIndices stat pin` is exactly being an offset
set-bit position of `stat`. -/
theorem mem_bitIndices : ∀ stat pin i : Nat,
    i ∈ bitIndices stat pin ↔ pin ≤ i ∧ stat.testBit (i - pin) := by
  intro stat
  induction stat using Nat.strong_induction_on with
  | _ stat ih =>
    intro pin i
    rw [bitIndices]
    by_cases h0 : stat = 0
    · simp [h0]
    · rw [if_neg h0]
      have hlt : stat / 2 < stat := Nat.bitwise_rec_lemma h0
      by_cases h2 : stat % 2 = 1
      · rw [if_pos h2]
        simp only [List.singleton_append, List.mem_cons, ih _ hlt]
        constructor
        · rintro (rfl | ⟨h3, h4⟩)
          · simp [h2]
          · refine ⟨by omega, ?_⟩
            have : i - pin = (i - (pin + 1)) + 1 := by omega
            rw [this, Nat.testBit_succ]
            exact h4
        · rintro ⟨h3, h4⟩
          rcases Nat.eq_or_lt_of_le h3 with rfl | h5
          · exact Or.inl rfl
          · refine Or.inr ⟨by omega, ?_⟩
            have : i - pin = (i - (pin + 1)) + 1 := by omega
            rw [this, Nat.testBit_succ] at h4
            exact h4
      · rw [if_neg h2]
        simp only [List.nil_append, ih _ hlt]
        constructor
        · rintro ⟨h3, h4⟩
          refine ⟨by omega, ?_⟩
          have : i - pin = (i - (pin + 1)) + 1 := by omega
          rw [this, Nat.testBit_succ]
          exact h4
        · rintro ⟨h3, h4⟩
          rcases Nat.eq_or_lt_of_le h3 with rfl | h5
          · rw [Nat.sub_self, Nat.testBit_zero] at h4
            simp at h4
            omega
          · refine ⟨by omega, ?_⟩
            have : i - pin = (i - (pin + 1)) + 1 := by omega
            rw [this, Nat.testBit_succ] at h4
            exact h4

/-- Helper: the set-bit indices are listed in strictly ascending order. -/
theorem bitIndices_pairwise : ∀ stat pin : Nat,
    (bitIndices stat pin).Pairwise (· < ·) := by
  intro stat
  induction stat using Nat.strong_induction_on with
  | _ stat ih =>
    intro pin
    rw [bitIndices]
    by_cases h0 : stat = 0
    · simp [h0]
    · rw [if_neg h0]
      have hlt : stat / 2 < stat := Nat.bitwise_rec_lemma h0
      by_cases h2 : stat % 2 = 1
      · rw [if_pos h2]
        simp only [List.singleton_append, List.pairwise_cons]
        refine ⟨fun j hj => ?_, ih _ hlt _⟩
        have := (mem_bitIndices _ _ _).mp hj
        omega
      · rw [if_neg h2]
        simpa using ih _ hlt _

/-- Helper: the GPIO dispatch loop invokes exactly the longest prefix of
pending-bit indices whose table entries are non-null. -/
theorem gpioLoop_eq_takeWhile (tbl : GpioTable) : ∀ stat pin : Nat,
    gpioLoop tbl stat pin =
      (bitIndices stat pin).takeWhile (fun i => !(tbl i).isNull) := by
  intro stat
  induction stat using Nat.strong_induction_on with
  | _ stat ih =>
    intro pin
    rw [gpioLoop, bitIndices]
    by_cases h0 : stat = 0
    · simp [h0]
    · rw [if_neg h0, if_neg h0]
      have hlt : stat / 2 < stat := Nat.bitwise_rec_lemma h0
      by_cases h2 : stat % 2 = 1
      · rw [if_pos h2, if_pos h2]
        simp only [List.singleton_append, List.takeWhile_cons]
        cases hn : (tbl pin).isNull <;> simp [hn, ih _ hlt]
      · rw [if_neg h2, if_neg h2]
        simpa using ih _ hlt _

/-- Helper: every table index read by the GPIO dispatch loop on a status
word below `2 ^ n` is below `pin + n`. -/
theorem gpioLoopReads_lt (tbl : GpioTable) : ∀ n stat pin i : Nat,
    stat < 2 ^ n → i ∈ gpioLoopReads tbl stat pin → i < pin + n := by
  intro n
  induction n with
  | zero =>
    intro stat pin i h hm
    interval_cases stat
    rw [gpioLoopReads] at hm
    simp at hm
  | succ n ih =>
    intro stat pin i h hm
    rw [gpioLoopReads] at hm
    by_cases h0 : stat = 0
    · simp [h0] at hm
    · rw [if_neg h0] at hm
      have hdiv : stat / 2 < 2 ^ n := by
        rw [pow_succ] at h
        omega
      by_cases h2 : stat % 2 = 1
      · rw [if_pos h2] at hm
        cases hn : (tbl pin).isNull
        · rw [hn] at hm
          simp only [Bool.false_eq_true, if_neg (by simp : ¬False)] at hm
          rcases List.mem_cons.mp hm with rfl | hm2
          · omega
          · have := ih _ _ _ hdiv hm2
            omega
        · rw [hn] at hm
          simp at hm
          omega
      · rw [if_neg h2] at hm
        have := ih _ _ _ hdiv hm
        omega

/-! ## Claim theorems -/

set_option maxRecDepth 10000

/-- C1 (code bug): the claim says every peripheral dispatch loop invokes
the handler exactly for the ascending bit indices set in both the pending
snapshot and the enabled mask.  The UART0 dispatcher contradicts this: on
pending word 0b10 with enable mask 0b01 (bit 1 pending but not enabled)
and a registered callback, `UART0_IRQHandler` invokes the callback for
bit 1, because its condition `(reg_int & 1) && uart_regs->int_en &&
BIT(n_int)` tests the enable register with a logical AND.  The spec decode
of the same pair is empty, and `UART1_IRQHandler`, which uses the bitwise
test `int_en & BIT(n_int)`, invokes nothing. -/
theorem C1_uart0_logical_and_bug :
    (UART0_IRQHandler (Slot.live ⟨0, 0, 0⟩) ⟨2, 1⟩).2 = [1] ∧
    decodeSpec 2 1 = [] ∧
    (UART1_IRQHandler (Slot.live ⟨0, 0, 0⟩) ⟨2, 1⟩).2 = [] := by
  refine ⟨?_, by decide, ?_⟩
  · simp [UART0_IRQHandler, Slot.isNull, uart0Loop, BIT]
  · simp [UART1_IRQHandler, Slot.isNull, uart1Loop, BIT]

/-- C2 (amended): during a GPIO dispatch cycle the dispatcher invokes the
registered handlers for the ascending pending-bit indices only up to the
first decoded pending bit with no registered entry; at that bit it returns
early and skips all remaining higher pending bits of the same snapshot.
`bitIndices regs.int_stat 0` is the ascending list of pending indices (by
the second and third conjuncts) and the dispatch result is its longest
prefix of indices whose table entry is non-null. -/
theorem C2_gpio_early_return (tbl : GpioTable) (stat : Nat) :
    (∀ regs : GpioRegs, (GPIO0_IRQHandler tbl regs).2 =
        (bitIndices regs.int_stat 0).takeWhile (fun i => !(tbl i).isNull)) ∧
    (∀ i, i ∈ bitIndices stat 0 ↔ stat.testBit i) ∧
    (bitIndices stat 0).Pairwise (· < ·) := by
  refine ⟨fun regs => gpioLoop_eq_takeWhile tbl _ _, fun i => ?_,
    bitIndices_pairwise _ _⟩
  rw [mem_bitIndices]
  simp

/-- C2 counterexample: with a callback registered for pin 1 only and pins
0 and 1 both pending, the behaviour the claim states (skip the
unregistered bit 0, still invoke the handler of pin 1) would yield `[1]`,
but the code returns at bit 0 and invokes nothing. -/
theorem C2_counterexample :
    (GPIO0_IRQHandler (fun i => if i = 1 then Slot.live ⟨0, 0, 0⟩ else Slot.null)
        ⟨0, 3, 0, 0, 0⟩).2 = [] ∧
    (bitIndices 3 0).filter
        (fun i => !((fun j => if j = 1 then Slot.live ⟨0, 0, 0⟩ else Slot.null) i).isNull)
      = [1] ∧
    ([] : List Nat) ≠ [1] := by
  refine ⟨?_, ?_, by decide⟩
  · simp [GPIO0_IRQHandler, gpioLoop, Slot.isNull]
  · rw [bitIndices, bitIndices, bitIndices]
    simp [Slot.isNull]

/-- C3 (amended): the UART0, UART1 and RTC dispatchers return immediately,
reading and clearing no hardware state, when no callback has ever been
registered for the peripheral; the GPIO dispatcher has no such up-front
registry check: it reads the status register and clears all pending flags
unconditionally, even with a completely empty registry (it merely invokes
no handler). -/
theorem C3_dispatch_no_callback :
    (∀ regs, UART0_IRQHandler Slot.null regs = (regs, [])) ∧
    (∀ regs, UART1_IRQHandler Slot.null regs = (regs, [])) ∧
    (∀ ctrl, RTC_IRQHandler Slot.null ctrl = (ctrl, [])) ∧
    (∀ regs : GpioRegs, regs.int_stat < 2 ^ 32 →
      (GPIO0_IRQHandler (fun _ => Slot.null) regs).2 = [] ∧
      (GPIO0_IRQHandler (fun _ => Slot.null) regs).1.int_stat = 0) := by
  refine ⟨fun regs => rfl, fun regs => rfl, fun ctrl => rfl, fun regs h => ⟨?_, ?_⟩⟩
  · show gpioLoop (fun _ => Slot.null) regs.int_stat 0 = []
    rw [gpioLoop_eq_takeWhile]
    generalize bitIndices regs.int_stat 0 = l
    cases l <;> simp [Slot.isNull]
  · exact land_mask32_compl_self h

/-- C3 witness: the amended theorem applied to a concrete status word 5
with an empty registry. -/
theorem C3_witness :
    (5 : Nat) < 2 ^ 32 ∧
    (GPIO0_IRQHandler (fun _ => Slot.null) ⟨0, 5, 0, 0, 0⟩).2 = [] ∧
    (GPIO0_IRQHandler (fun _ => Slot.null) ⟨0, 5, 0, 0, 0⟩).1.int_stat = 0 :=
  ⟨by norm_num, (C3_dispatch_no_callback.2.2.2 ⟨0, 5, 0, 0, 0⟩ (by norm_num)).1,
    (C3_dispatch_no_callback.2.2.2 ⟨0, 5, 0, 0, 0⟩ (by norm_num)).2⟩

/-- C3 counterexample: with no callback ever registered and status word 5
pending, the GPIO dispatch clears the status register to 0, so it is not
a no-op on hardware state as the claim requires of every dispatcher. -/
theorem C3_counterexample :
    (GPIO0_IRQHandler (fun _ => Slot.null) ⟨0, 5, 0, 0, 0⟩).1.int_stat = 0 ∧
    (GPIO0_IRQHandler (fun _ => Slot.null) ⟨0, 5, 0, 0, 0⟩).2 = [] ∧
    (5 : Nat) ≠ 0 := by
  refine ⟨by decide, ?_, by decide⟩
  show gpioLoop (fun _ => Slot.null) 5 0 = []
  simp [gpioLoop, Slot.isNull]

/-- C4 (code bug): the claim says `max_gpio_irq_set_trigger_level` leaves
the pin's interrupt-enable bit equal to its pre-call value for every pin.
The pre-call snapshot is stored in a C `uint8_t`, truncating
`int_en & BIT(number)` to 8 bits, so for pin 8 with its enable bit set
(`int_en = 0x100`) the snapshot is 0 and the cleared enable bit is never
restored: the call succeeds but the pin comes back disabled.  For pin 3
(below 8) the enable bit is preserved as claimed. -/
theorem C4_enable_bit_lost :
    max_gpio_irq_set_trigger_level (some ⟨8, true⟩) TrigLevel.edgeRising
      ⟨256, 0, 0, 0, 0⟩ = (0, ⟨0, 0, 256, 0, 0⟩) ∧
    (256 : Nat).testBit 8 = true ∧ (0 : Nat).testBit 8 = false ∧
    max_gpio_irq_set_trigger_level (some ⟨3, true⟩) TrigLevel.edgeRising
      ⟨8, 8, 0, 0, 0⟩ = (0, ⟨8, 0, 8, 0, 0⟩) := by
  decide

/-- C5 (amended): a NULL descriptor, a NULL `extra`, and an out-of-range
pin are detected before any hardware register is read or written, with no
effect on state, and an unrecognized facade source id likewise fails with
`-EINVAL` leaving all registries and registers untouched; but an
unrecognized trigger policy is detected only after the pin's enable bit
has been cleared and its pending flag cleared: the enable bit is restored
from the 8-bit-truncated snapshot before returning, while the cleared
pending flag is not restored. -/
theorem C5_invalid_argument_paths :
    (∀ trig regs, max_gpio_irq_set_trigger_level none trig regs = (-EINVAL, regs)) ∧
    (∀ n e trig regs, N_PINS ≤ n →
      max_gpio_irq_set_trigger_level (some ⟨n, e⟩) trig regs = (-EINVAL, regs)) ∧
    (∀ n trig regs, max_gpio_irq_set_trigger_level (some ⟨n, false⟩) trig regs
      = (-EINVAL, regs)) ∧
    (∀ n v regs, n < N_PINS →
      max_gpio_irq_set_trigger_level (some ⟨n, true⟩) (TrigLevel.other v) regs =
        (-EINVAL, { regs with
          int_en := if (regs.int_en &&& BIT n) % 256 ≠ 0
                    then sbit (cbit regs.int_en n) n else cbit regs.int_en n,
          int_stat := cbit regs.int_stat n })) ∧
    (∀ ok d id cbd st, id ≠ MAX_UART0_INT_ID → id ≠ MAX_UART1_INT_ID →
      id ≠ MAX_GPIO_INT_ID → id ≠ MAX_RTC_INT_ID →
      max_irq_register_callback ok (some d) id cbd st = (-EINVAL, st)) ∧
    (∀ ok id cbd st, max_irq_register_callback ok none id cbd st = (-EINVAL, st)) := by
  refine ⟨fun trig regs => rfl, ?_, ?_, ?_, ?_, fun ok id cbd st => rfl⟩
  · intro n e trig regs h
    cases e <;> simp [max_gpio_irq_set_trigger_level, h]
  · intro n trig regs
    simp [max_gpio_irq_set_trigger_level]
  · intro n v regs h
    simp only [max_gpio_irq_set_trigger_level, Bool.not_true, Bool.false_eq_true,
      if_false, if_neg (by omega : ¬N_PINS ≤ n)]
    by_cases hc : (regs.int_en &&& BIT n) % 256 ≠ 0 <;> simp [hc]
  · intro ok d id cbd st h1 h2 h3 h4
    simp [max_irq_register_callback, h1, h2, h3, h4]

/-- C5 witness: the amended theorem applied to an out-of-range pin 14, to
an unrecognized policy on pin 3 with its pending flag set, and to the
unrecognized facade id 99. -/
theorem C5_witness :
    (N_PINS ≤ 14 ∧ max_gpio_irq_set_trigger_level (some ⟨14, true⟩)
        TrigLevel.edgeRising ⟨0, 0, 0, 0, 0⟩ = (-EINVAL, ⟨0, 0, 0, 0, 0⟩)) ∧
    ((3 : Nat) < N_PINS ∧ max_gpio_irq_set_trigger_level (some ⟨3, true⟩)
        (TrigLevel.other 7) ⟨8, 8, 0, 0, 0⟩ = (-EINVAL, ⟨8, 0, 0, 0, 0⟩)) ∧
    ((99 : Nat) ≠ MAX_UART0_INT_ID ∧
      max_irq_register_callback true (some ⟨none⟩) 99 none
        ⟨⟨Slot.null, Slot.null⟩, Slot.null, fun _ => Slot.null, ⟨0, 0, 0, 0, 0⟩⟩ =
        (-EINVAL, ⟨⟨Slot.null, Slot.null⟩, Slot.null, fun _ => Slot.null,
          ⟨0, 0, 0, 0, 0⟩⟩)) := by
  refine ⟨⟨by decide, C5_invalid_argument_paths.2.1 14 true TrigLevel.edgeRising
      ⟨0, 0, 0, 0, 0⟩ (by decide)⟩,
    ⟨by decide, ?_⟩,
    ⟨by decide, C5_invalid_argument_paths.2.2.2.2.1 true ⟨none⟩ 99 none _
      (by decide) (by decide) (by decide) (by decide)⟩⟩
  rw [C5_invalid_argument_paths.2.2.2.1 3 7 ⟨8, 8, 0, 0, 0⟩ (by decide)]
  decide

/-- C5 counterexample: an unrecognized trigger policy on pin 3 returns
`-EINVAL` but only after the pin's pending flag (status bit 3) has been
cleared, so the error is not detected before hardware is written and the
hardware state is not left exactly as it was. -/
theorem C5_counterexample :
    (max_gpio_irq_set_trigger_level (some ⟨3, true⟩) (TrigLevel.other 7)
      ⟨8, 8, 0, 0, 0⟩).1 = -EINVAL ∧
    (max_gpio_irq_set_trigger_level (some ⟨3, true⟩) (TrigLevel.other 7)
      ⟨8, 8, 0, 0, 0⟩).2.int_stat = 0 ∧
    (8 : Nat) ≠ 0 := by
  decide

/-- C6 (code bug): the claim says a second immediate unregister on the
same source fails with NotFound.  The unregister paths free the descriptor
without resetting the pointer to NULL, so after a successful RTC
unregister the slot is dangling, and a second unregister passes the
`!cb` guard, frees the same pointer again and returns 0, not `-EINVAL`;
the UART path behaves identically, and the GPIO unregister has no
registration check at all: with nothing ever registered it returns 0. -/
theorem C6_unregister_not_notfound :
    rtc_register_callback true (some ⟨1, 2, 3⟩) Slot.null = (0, Slot.live ⟨1, 2, 3⟩) ∧
    rtc_unregister_callback (Slot.live ⟨1, 2, 3⟩) = (0, Slot.dangling) ∧
    rtc_unregister_callback Slot.dangling = (0, Slot.dangling) ∧
    uart_unregister_callback 0 ⟨Slot.dangling, Slot.null⟩
      = (0, ⟨Slot.dangling, Slot.null⟩) ∧
    max_gpio_unregister_callback (some ⟨some ⟨some ⟨3, true⟩, TrigLevel.edgeRising⟩⟩)
      (fun _ => Slot.null) = (0, fun _ => Slot.null) ∧
    (0 : Int) ≠ -EINVAL := by
  refine ⟨by decide, by decide, by decide, by decide, rfl, by decide⟩

/-- C7 (amended): the UART and RTC registrations overwrite an existing
live slot in place, with no new allocation (they succeed even when the
allocator fails); a failed UART, RTC or GPIO registration leaves the prior
registry state untouched; but the GPIO registration allocates a fresh
descriptor on every call and swaps the table pointer to it, so it can fail
with `-ENOMEM` even for a pin that already has a registered entry. -/
theorem C7_register_overwrite :
    (∀ ok c0 c1 s1, uart_register_callback ok 0 (some c1) ⟨Slot.live c0, s1⟩
      = (0, ⟨Slot.live c1, s1⟩)) ∧
    (∀ ok c0 c1 s0, uart_register_callback ok 1 (some c1) ⟨s0, Slot.live c0⟩
      = (0, ⟨s0, Slot.live c1⟩)) ∧
    (∀ ok c0 c1, rtc_register_callback ok (some c1) (Slot.live c0) = (0, Slot.live c1)) ∧
    (∀ gi c tbl regs, max_gpio_register_callback false (some ⟨some gi⟩) (some c) tbl regs
      = (-ENOMEM, tbl, regs)) ∧
    (∀ ok port d s, (uart_register_callback ok port d s).1 ≠ 0 →
      (uart_register_callback ok port d s).2 = s) ∧
    (∀ ok d s, (rtc_register_callback ok d s).1 ≠ 0 →
      (rtc_register_callback ok d s).2 = s) ∧
    (∀ ok gi c tbl regs,
      (max_gpio_register_callback ok (some ⟨some gi⟩) (some c) tbl regs).1 ≠ 0 →
      (max_gpio_register_callback ok (some ⟨some gi⟩) (some c) tbl regs).2.1 = tbl) := by
  refine ⟨fun ok c0 c1 s1 => rfl, fun ok c0 c1 s0 => rfl, fun ok c0 c1 => rfl,
    fun gi c tbl regs => rfl, ?_, ?_, ?_⟩
  · intro ok port d s h
    cases d with
    | none => rfl
    | some c =>
      by_cases hp : N_PORTS ≤ port
      · simp [uart_register_callback, hp]
      · cases ok <;> rcases hs : s.get port with _ | c0 | _ <;>
          simp [uart_register_callback, hp, hs] at h ⊢
  · intro ok d s h
    cases d with
    | none => rfl
    | some c =>
      cases ok <;> rcases s with _ | c0 | _ <;>
        simp [rtc_register_callback] at h ⊢
  · intro ok gi c tbl regs h
    cases ok with
    | false => rfl
    | true =>
      simp only [max_gpio_register_callback, Bool.not_true, Bool.false_eq_true,
        if_false] at h ⊢
      by_cases ht : (max_gpio_irq_set_trigger_level gi.gdesc gi.mode regs).1 ≠ 0
      · simp [ht]
      · simp only [ht, if_false] at h ⊢
        cases hg : gi.gdesc with
        | none => simp [hg] at h ⊢
        | some gd => simp [hg] at h

/-- C7 witness: the amended theorem applied to a concrete UART overwrite
with a failing allocator and to a failing registration on an empty slot. -/
theorem C7_witness :
    (uart_register_callback false 0 (some ⟨1, 1, 1⟩) ⟨Slot.live ⟨0, 0, 0⟩, Slot.null⟩
      = (0, ⟨Slot.live ⟨1, 1, 1⟩, Slot.null⟩)) ∧
    ((uart_register_callback false 0 (some ⟨1, 1, 1⟩) ⟨Slot.null, Slot.null⟩).1 ≠ 0 ∧
      (uart_register_callback false 0 (some ⟨1, 1, 1⟩) ⟨Slot.null, Slot.null⟩).2
        = ⟨Slot.null, Slot.null⟩) :=
  ⟨C7_register_overwrite.1 false ⟨0, 0, 0⟩ ⟨1, 1, 1⟩ Slot.null,
    by decide,
    C7_register_overwrite.2.2.2.2.1 false 0 (some ⟨1, 1, 1⟩) ⟨Slot.null, Slot.null⟩
      (by decide)⟩

/-- C7 counterexample: `max_gpio_register_callback` on pin 3, which
already holds a live entry, fails with `-ENOMEM` when the allocator fails,
refuting the claim that AllocationFailure can occur only when no entry
exists for the source. -/
theorem C7_counterexample :
    (max_gpio_register_callback false
      (some ⟨some ⟨some ⟨3, true⟩, TrigLevel.edgeRising⟩⟩) (some ⟨1, 2, 3⟩)
      (fun i => if i = 3 then Slot.live ⟨7, 8, 9⟩ else Slot.null) ⟨0, 0, 0, 0, 0⟩).1
      = -ENOMEM ∧
    (fun i => if i = 3 then Slot.live ⟨7, 8, 9⟩ else Slot.null) 3 = Slot.live ⟨7, 8, 9⟩ ∧
    (-ENOMEM : Int) ≠ 0 := by
  refine ⟨rfl, rfl, by decide⟩

/-- C8: the subsecond conversions are exact truncating integer arithmetic:
`hwUnitsOfMs` is `ms * 256 / 1000` (the magnitude armed by `MS_TO_RSSA`,
which stores its 32-bit negation) and `msOfHwUnits` is
`hw_units * 1000 / 256`.  On the 256-units-per-second quantization grid
(the integer millisecond values `125 * k`, since `1000 / 256 = 125 / 32`)
the round trip is the identity — in particular 500 ms → 128 units →
500 ms — and for every other value the round trip truncates downward,
never above the input, by less than one quantization step plus the
millisecond truncation (strictly less than 5 ms). -/
theorem C8_roundtrip (x k : Nat) :
    msOfHwUnits (hwUnitsOfMs (125 * k)) = 125 * k ∧
    hwUnitsOfMs 500 = 128 ∧ msOfHwUnits 128 = 500 ∧
    MS_TO_RSSA 500 = 2 ^ 32 - 128 ∧
    msOfHwUnits (hwUnitsOfMs x) ≤ x ∧
    x < msOfHwUnits (hwUnitsOfMs x) + 5 := by
  refine ⟨?_, by norm_num [hwUnitsOfMs], by norm_num [msOfHwUnits],
    by norm_num [MS_TO_RSSA, hwUnitsOfMs], ?_, ?_⟩
  · unfold msOfHwUnits hwUnitsOfMs
    omega
  · unfold msOfHwUnits hwUnitsOfMs
    omega
  · unfold msOfHwUnits hwUnitsOfMs
    omega

/-- C9: every descriptor accepted by `max_gpio_get` has its pin number
below `N_INT = 14`, every `gpio_callback` read performed by the dispatch
loop of `GPIO0_IRQHandler` on a status word of the controller (one pending
bit per pin, hence below `2 ^ N_INT`) is at an index below `N_INT`, and
for a descriptor accepted by `max_gpio_get` the registration write and the
unregistration free never touch table indices at or beyond `N_INT`. -/
theorem C9_callback_table_in_bounds :
    (∀ ok p r d, max_gpio_get ok p = (r, some d) → d.number < N_INT) ∧
    (∀ tbl stat i, stat < 2 ^ N_INT → i ∈ gpioLoopReads tbl stat 0 → i < N_INT) ∧
    (∀ ok p d trig c tbl regs j, max_gpio_get ok p = (0, some d) → N_INT ≤ j →
      (max_gpio_register_callback true (some ⟨some ⟨some d, trig⟩⟩) (some c)
        tbl regs).2.1 j = tbl j ∧
      (max_gpio_unregister_callback (some ⟨some ⟨some d, trig⟩⟩) tbl).2 j = tbl j) := by
  have hget : ∀ ok p r (d : GpioDesc), max_gpio_get ok p = (r, some d) →
      d.number < N_INT := by
    intro ok p r d h
    cases p with
    | none => simp [max_gpio_get] at h
    | some q =>
      by_cases hn : N_PINS ≤ q.number
      · simp [max_gpio_get, hn] at h
      · cases ok with
        | false => simp [max_gpio_get, hn] at h
        | true =>
          simp [max_gpio_get, hn] at h
          have : d.number = q.number := by rw [← h.2]
          have e : N_PINS = N_INT := rfl
          omega
  refine ⟨hget, ?_, ?_⟩
  · intro tbl stat i h hm
    have := gpioLoopReads_lt tbl N_INT stat 0 i h hm
    omega
  · intro ok p d trig c tbl regs j hg hj
    have hd : d.number < N_INT := hget ok p 0 d hg
    constructor
    · simp only [max_gpio_register_callback]
      by_cases ht : (max_gpio_irq_set_trigger_level (some d) trig regs).1 ≠ 0
      · simp [ht]
      · simp only [ht, if_false]
        have : ¬(j = d.number) := by omega
        simp [this]
    · simp only [max_gpio_unregister_callback]
      cases htb : tbl d.number with
      | live c0 =>
        have : ¬(j = d.number) := by omega
        simp [this]
      | null => rfl
      | dangling => rfl

/-- C9 witness: the bounds theorem applied to the accepted descriptor for
pin 3, to the dispatch reads of the concrete status word 5, and to table
index 20 after a registration for pin 3. -/
theorem C9_witness :
    (max_gpio_get true (some ⟨3, true⟩) = (0, some ⟨3, true⟩) ∧ (3 : Nat) < N_INT) ∧
    ((5 : Nat) < 2 ^ N_INT ∧
      (2 : Nat) ∈ gpioLoopReads (fun _ => Slot.live ⟨0, 0, 0⟩) 5 0 ∧
      (2 : Nat) < N_INT) ∧
    (N_INT ≤ 20 ∧
      (max_gpio_register_callback true
        (some ⟨some ⟨some ⟨3, true⟩, TrigLevel.edgeRising⟩⟩) (some ⟨0, 0, 0⟩)
        (fun _ => Slot.null) ⟨0, 0, 0, 0, 0⟩).2.1 20 = Slot.null) := by
  have hmem : (2 : Nat) ∈ gpioLoopReads (fun _ => Slot.live ⟨0, 0, 0⟩) 5 0 := by
    rw [gpioLoopReads, gpioLoopReads, gpioLoopReads]
    simp [Slot.isNull]
  refine ⟨⟨by decide, C9_callback_table_in_bounds.1 true (some ⟨3, true⟩) 0 ⟨3, true⟩
      (by decide)⟩,
    ⟨by decide, hmem, C9_callback_table_in_bounds.2.1 _ 5 2 (by decide) hmem⟩,
    ⟨by decide, ?_⟩⟩
  have := (C9_callback_table_in_bounds.2.2 true (some ⟨3, true⟩) ⟨3, true⟩
    TrigLevel.edgeRising ⟨0, 0, 0⟩ (fun _ => Slot.null) ⟨0, 0, 0, 0, 0⟩ 20
    (by decide) (by decide)).1
  rw [this]

/-- C10: `max_gpio_get_optional` with a NULL initialization parameter
succeeds, returning 0 and storing a NULL descriptor pointer rather than
failing with `-EINVAL`; with a non-null parameter it is exactly
`max_gpio_get`. -/
theorem C10_get_optional_null_param :
    (∀ ok, max_gpio_get_optional ok none = (0, none)) ∧
    (∀ ok p, max_gpio_get_optional ok (some p) = max_gpio_get ok (some p)) :=
  ⟨fun _ => rfl, fun _ _ => rfl⟩

end NoOS
